import Mathlib

/-!
Verification development for the `react-scroll` scroll-sync hook.

The embedding below follows `src/hooks/useScrollSync.ts` and
`src/utils/debounce.ts`.  Numbers that the source handles as JS numbers
(intersection ratios, pixel offsets) are modelled as rationals; logical
time (`setTimeout` fire instants) is modelled as natural numbers.  The
DOM collaborators (IntersectionObserver, element geometry, scrollTo) are
modelled by their observable inputs: a batch of observer entries per
tick, and an environment giving element offsets and mount status.
-/

namespace ReactScroll

/-- Default debounce delay in ms (`DEFAULT_DEBOUNCE_DELAY`). -/
def DEFAULT_DEBOUNCE_DELAY : Nat := 150

/-- Default stickiness factor (`DEFAULT_STICKINESS_FACTOR`). -/
def DEFAULT_STICKINESS_FACTOR : ℚ := 1.05

/-- Default active-zone height in px (`DEFAULT_ACTIVE_ZONE_HEIGHT`). -/
def DEFAULT_ACTIVE_ZONE_HEIGHT : ℚ := 200

/-- Settle duration of a programmatic scroll in ms (the literal `800` in
`handleTabClick`). -/
def PROGRAMMATIC_SCROLL_SETTLE : Nat := 800

/-- One raw `IntersectionObserverEntry`, restricted to the fields
`observerCallback` reads: `entry.target.id`, `entry.isIntersecting`,
`entry.intersectionRatio`, `entry.boundingClientRect.top` and
`entry.intersectionRect?.bottom` (absent rect modelled as `none`,
matching the `?? 0` default in the source). -/
structure ObserverEntry where
  id : String
  isIntersecting : Bool
  intersectionRatio : ℚ
  boundingClientRectTop : ℚ
  intersectionRectBottom : Option ℚ
deriving DecidableEq, Repr

/-- One element of `processedEntries` in `observerCallback`. -/
structure ProcessedEntry where
  id : String
  isIntersecting : Bool
  intersectionRatio : ℚ
  boundingClientRectTop : ℚ
  visibleHeightBelowActiveLine : ℚ
deriving DecidableEq, Repr

/-- The `entries.map ...` step of `observerCallback`:
`visibleHeightBelowActiveLine = Math.max(0, (entry.intersectionRect?.bottom ?? 0)
- effectiveActiveLineOffset)`. -/
def processEntry (effectiveActiveLineOffset : ℚ) (e : ObserverEntry) : ProcessedEntry :=
  { id := e.id
    isIntersecting := e.isIntersecting
    intersectionRatio := e.intersectionRatio
    boundingClientRectTop := e.boundingClientRectTop
    visibleHeightBelowActiveLine :=
      max 0 ((e.intersectionRectBottom.getD 0) - effectiveActiveLineOffset) }

/-- `processedEntries` of `observerCallback`. -/
def processedEntries (effectiveActiveLineOffset : ℚ) (entries : List ObserverEntry) :
    List ProcessedEntry :=
  entries.map (processEntry effectiveActiveLineOffset)

/-- The filter predicate of `visibleCandidates`:
`item.isIntersecting && item.visibleHeightBelowActiveLine > 0 &&
item.intersectionRatio > 0.05`. -/
def isVisibleCandidate (item : ProcessedEntry) : Bool :=
  item.isIntersecting &&
    decide (item.visibleHeightBelowActiveLine > 0) &&
    decide (item.intersectionRatio > 0.05)

/-- `visibleCandidates` before sorting. -/
def visibleCandidates (effectiveActiveLineOffset : ℚ) (entries : List ObserverEntry) :
    List ProcessedEntry :=
  (processedEntries effectiveActiveLineOffset entries).filter isVisibleCandidate

/-- The comparator passed to `visibleCandidates.sort`: negative when `a`
ranks before `b`.  First key `intersectionRatio` descending, then
`visibleHeightBelowActiveLine` descending, then distance of
`boundingClientRectTop` from the active line ascending. -/
def candCmp (effectiveActiveLineOffset : ℚ) (a b : ProcessedEntry) : ℚ :=
  if b.intersectionRatio ≠ a.intersectionRatio then
    b.intersectionRatio - a.intersectionRatio
  else if b.visibleHeightBelowActiveLine ≠ a.visibleHeightBelowActiveLine then
    b.visibleHeightBelowActiveLine - a.visibleHeightBelowActiveLine
  else
    |a.boundingClientRectTop - effectiveActiveLineOffset| -
      |b.boundingClientRectTop - effectiveActiveLineOffset|

/-- `a` sorts no later than `b` under the comparator: `candCmp a b ≤ 0`.
`Array.prototype.sort` (stable since ES2019) with comparator `c` produces
exactly the stable sort with respect to this relation. -/
def candBefore (effectiveActiveLineOffset : ℚ) (a b : ProcessedEntry) : Prop :=
  candCmp effectiveActiveLineOffset a b ≤ 0

instance (line : ℚ) : DecidableRel (candBefore line) := fun a b =>
  inferInstanceAs (Decidable (candCmp line a b ≤ 0))

/-- The in-place `visibleCandidates.sort(...)` step, modelled as the stable
sort with respect to `candBefore` (insertion sort is stable, like the JS
engine's sort). -/
def sortCandidates (effectiveActiveLineOffset : ℚ) (l : List ProcessedEntry) :
    List ProcessedEntry :=
  List.insertionSort (candBefore effectiveActiveLineOffset) l

/-- The candidate-resolution part of `observerCallback` (everything after
the programmatic-scroll guard): returns the id handed to
`debouncedUpdateActiveTab`, or `none` on the early-return paths. -/
def resolveCandidate (stickinessFactor effectiveActiveLineOffset : ℚ)
    (currentActualActiveTabId : String) (entries : List ObserverEntry) : Option String :=
  let processed := processedEntries effectiveActiveLineOffset entries
  let cands := processed.filter isVisibleCandidate
  if cands.isEmpty then
    -- Both branches of the source return without forwarding anything:
    -- whether or not the current section is still slightly intersecting.
    match processed.find? (fun e => e.id == currentActualActiveTabId) with
    | some currentSectionEntry =>
        if currentSectionEntry.isIntersecting ∧ currentSectionEntry.intersectionRatio > 0.01
        then none else none
    | none => none
  else
    let sorted := sortCandidates effectiveActiveLineOffset cands
    match sorted with
    | [] => none
    | topSortedCandidate :: _ =>
      -- the source's `find` runs on the array mutated in place by `sort`
      match sorted.find? (fun vc => vc.id == currentActualActiveTabId) with
      | some currentActiveCandidateInList =>
          if topSortedCandidate.id ≠ currentActualActiveTabId ∧
              topSortedCandidate.intersectionRatio <
                currentActiveCandidateInList.intersectionRatio * stickinessFactor then
            some currentActualActiveTabId
          else
            some topSortedCandidate.id
      | none => some topSortedCandidate.id

/-- `SessionState`: the mutable state of one hook instance.  Timer handles
are modelled by the absolute logical time at which the scheduled callback
would run (plus, for the debounce timer, the captured candidate id).
`notifications` records the `onActiveTabChange` calls, most recent first. -/
structure Session where
  activeTab : String
  isProgrammaticScroll : Bool
  programmaticScrollTimeout : Option Nat
  debounceTimeout : Option (Nat × String)
  notifications : List String
deriving DecidableEq, Repr

/-- `setActiveTab` followed by the `useEffect` on `activeTab`: React skips
the update when the value is unchanged, otherwise the effect fires
`onActiveTabChange(activeTab)`. -/
def setActiveTab (tabId : String) (s : Session) : Session :=
  if tabId = s.activeTab then s
  else { s with activeTab := tabId, notifications := tabId :: s.notifications }

/-- `getInitialActiveTab`: `if (initialActiveTab) return initialActiveTab`
(the empty string is falsy), else the first section key, else `''`. -/
def getInitialActiveTab (initialActiveTab : Option String) (sectionKeys : List String) :
    String :=
  if initialActiveTab.getD "" ≠ "" then initialActiveTab.getD ""
  else
    match sectionKeys with
    | [] => ""
    | k :: _ => k

/-- Fresh session state after `useState(getInitialActiveTab())`. -/
def initSession (initialActiveTab : Option String) (sectionKeys : List String) : Session :=
  { activeTab := getInitialActiveTab initialActiveTab sectionKeys
    isProgrammaticScroll := false
    programmaticScrollTimeout := none
    debounceTimeout := none
    notifications := [] }

/-- The DOM environment `handleTabClick` reads: `sections[tabId]?.current`
with its `offsetTop` (merged into one partial map, `none` when the id is
unregistered or its element unmounted), whether `scrollContainerRef.current`
is non-null, and `navTabsRef?.current?.offsetHeight ?? 0`. -/
structure ClickEnv where
  sectionOffsetTop : String → Option ℚ
  scrollContainerMounted : Bool
  navTabsOffsetHeight : ℚ

/-- The `scrollContainer.scrollTo({top, behavior})` command. -/
structure ScrollCommand where
  top : ℚ
  behavior : String
deriving DecidableEq, Repr

/-- Result of one `handleTabClick` call: the new session state, the scroll
command issued (if any), and whether the `console.warn` fallback fired. -/
structure ClickResult where
  session : Session
  scrollCommand : Option ScrollCommand
  warned : Bool
deriving DecidableEq, Repr

/-- The effective line offset used by `handleTabClick`:
`activeLineOffset !== undefined ? activeLineOffset : navTabsHeight`, where
`navTabsHeight` was defaulted to `60` when it measured `0` and no
`activeLineOffset` is configured. -/
def clickEffectiveNavHeight (activeLineOffset : Option ℚ) (measuredNavTabsHeight : ℚ) : ℚ :=
  let navTabsHeight :=
    if measuredNavTabsHeight = 0 ∧ activeLineOffset = none then 60 else measuredNavTabsHeight
  match activeLineOffset with
  | some o => o
  | none => navTabsHeight

/-- `handleTabClick(tabId, behavior?)`.  The body runs only when both the
section element and the scroll container resolve; it then clears any
pending un-suppress timeout, sets the programmatic-scroll flag, updates
`activeTab` optimistically, issues the scroll command, and schedules the
un-suppress callback 800 ms out. -/
def handleTabClick (env : ClickEnv) (activeLineOffset : Option ℚ)
    (defaultScrollBehavior : String) (now : Nat) (tabId : String)
    (behavior : Option String) (s : Session) : ClickResult :=
  match env.sectionOffsetTop tabId, env.scrollContainerMounted with
  | some elementTopInScrollContainer, true =>
    let warned : Bool :=
      decide (env.navTabsOffsetHeight = 0 ∧ activeLineOffset = none)
    let effectiveNavHeight := clickEffectiveNavHeight activeLineOffset env.navTabsOffsetHeight
    let scrollToPosition := elementTopInScrollContainer - effectiveNavHeight
    let s1 := { s with programmaticScrollTimeout := none }
    let s2 := { s1 with isProgrammaticScroll := true }
    let s3 := setActiveTab tabId s2
    let s4 := { s3 with programmaticScrollTimeout := some (now + PROGRAMMATIC_SCROLL_SETTLE) }
    { session := s4
      scrollCommand := some
        { top := scrollToPosition
          behavior := behavior.getD defaultScrollBehavior }
      warned := warned }
  | _, _ => { session := s, scrollCommand := none, warned := false }

/-- `debouncedUpdateActiveTab(tabId)`: the wrapper from `debounce.ts`
clears any pending timeout and schedules `func(tabId)` at `now + waitFor`.
-/
def debouncedUpdateActiveTab (debounceDelay : Nat) (now : Nat) (tabId : String)
    (s : Session) : Session :=
  { s with debounceTimeout := some (now + debounceDelay, tabId) }

/-- The debounce timer callback actually running:
`if (tabId && tabId !== activeTabRef.current) setActiveTab(tabId)`. -/
def fireDebounce (s : Session) : Session :=
  match s.debounceTimeout with
  | none => s
  | some (_, tabId) =>
    let s1 := { s with debounceTimeout := none }
    if tabId ≠ "" ∧ tabId ≠ s1.activeTab then setActiveTab tabId s1 else s1

/-- The un-suppress callback scheduled by `handleTabClick` running at time
`now`: it only runs once its fire time has been reached and it is still
scheduled. -/
def fireUnsuppress (now : Nat) (s : Session) : Session :=
  match s.programmaticScrollTimeout with
  | some t =>
      if t ≤ now then
        { s with isProgrammaticScroll := false, programmaticScrollTimeout := none }
      else s
  | none => s

/-- One `observerCallback` invocation at time `now`: skipped entirely while
`isProgrammaticScrollRef.current` is set; otherwise resolves the candidate
and, when one is produced, hands it to `debouncedUpdateActiveTab`. -/
def observerTick (stickinessFactor effectiveActiveLineOffset : ℚ) (debounceDelay : Nat)
    (now : Nat) (entries : List ObserverEntry) (s : Session) : Session :=
  if s.isProgrammaticScroll then s
  else
    match resolveCandidate stickinessFactor effectiveActiveLineOffset s.activeTab entries with
    | none => s
    | some newPotentialActiveId =>
        debouncedUpdateActiveTab debounceDelay now newPotentialActiveId s

/-- The observer effect's cleanup function: it unobserves the elements and
clears `programmaticScrollTimeoutRef` when set — and nothing else; in
particular the debounce wrapper's internal timeout is not touched. -/
def effectCleanup (s : Session) : Session :=
  { s with programmaticScrollTimeout := none }

/-- `effectiveActiveLineOffset` as computed inside the observer effect:
the explicit `activeLineOffset` when configured, otherwise the measured
nav-bar height (defaulted to `60` when it is `0` and no override is set)
plus a fixed 5 px margin. -/
def observerEffectiveActiveLineOffset (activeLineOffset : Option ℚ)
    (measuredNavTabsHeight : ℚ) : ℚ :=
  let calculatedNavTabsHeight :=
    if measuredNavTabsHeight = 0 ∧ activeLineOffset = none then 60 else measuredNavTabsHeight
  match activeLineOffset with
  | some o => o
  | none => calculatedNavTabsHeight + 5

/-- An event that can occur between a click and the end of its settle
window: an observer tick, or the scheduled un-suppress callback becoming
eligible to run at its fire time. -/
inductive PreSettleEvent where
  | tick (now : Nat) (entries : List ObserverEntry)
  | unsuppressAttempt (now : Nat)

/-- The logical time at which a `PreSettleEvent` occurs. -/
def eventTime : PreSettleEvent → Nat
  | .tick now _ => now
  | .unsuppressAttempt now => now

/-- Process one `PreSettleEvent` against the session. -/
def stepPreSettle (stickinessFactor effectiveActiveLineOffset : ℚ) (debounceDelay : Nat)
    (s : Session) : PreSettleEvent → Session
  | .tick now entries =>
      observerTick stickinessFactor effectiveActiveLineOffset debounceDelay now entries s
  | .unsuppressAttempt now => fireUnsuppress now s

/-- The `activeId` invariant of the spec, strengthened with the matching
fact about the pending debounce candidate (needed for preservation):
`activeTab` is a registered section key, or empty with no keys registered;
and any pending debounced candidate is a registered key or empty. -/
def ActiveInv (sectionKeys : List String) (s : Session) : Prop :=
  (s.activeTab ∈ sectionKeys ∨ (s.activeTab = "" ∧ sectionKeys = [])) ∧
  (∀ ti id, s.debounceTimeout = some (ti, id) → id ∈ sectionKeys ∨ id = "")

/-! ## Properties of the candidate ordering -/

/-- `isVisibleCandidate` spelled out as a proposition. -/
theorem isVisibleCandidate_iff (p : ProcessedEntry) :
    isVisibleCandidate p = true ↔
      p.isIntersecting = true ∧ 0 < p.visibleHeightBelowActiveLine ∧
        (0.05 : ℚ) < p.intersectionRatio := by
  unfold isVisibleCandidate
  simp [and_assoc]

/-- The comparator-induced relation is the lexicographic ordering
(ratio descending, visible height descending, line distance ascending). -/
theorem candBefore_iff (line : ℚ) (a b : ProcessedEntry) :
    candBefore line a b ↔
      (b.intersectionRatio < a.intersectionRatio ∨
        (b.intersectionRatio = a.intersectionRatio ∧
          (b.visibleHeightBelowActiveLine < a.visibleHeightBelowActiveLine ∨
            (b.visibleHeightBelowActiveLine = a.visibleHeightBelowActiveLine ∧
              |a.boundingClientRectTop - line| ≤ |b.boundingClientRectTop - line|)))) := by
  unfold candBefore candCmp
  split_ifs with h1 h2
  · rw [sub_nonpos]
    constructor
    · intro hle
      exact Or.inl (lt_of_le_of_ne hle h1)
    · rintro (hlt | ⟨heq, _⟩)
      · exact le_of_lt hlt
      · exact absurd heq h1
  · have he : b.intersectionRatio = a.intersectionRatio := not_ne_iff.mp h1
    rw [sub_nonpos]
    constructor
    · intro hle
      exact Or.inr ⟨he, Or.inl (lt_of_le_of_ne hle h2)⟩
    · rintro (hlt | ⟨_, hv | ⟨heq2, _⟩⟩)
      · rw [he] at hlt
        exact absurd hlt (lt_irrefl _)
      · exact le_of_lt hv
      · exact absurd heq2 h2
  · have he : b.intersectionRatio = a.intersectionRatio := not_ne_iff.mp h1
    have hv : b.visibleHeightBelowActiveLine = a.visibleHeightBelowActiveLine :=
      not_ne_iff.mp h2
    rw [sub_nonpos]
    constructor
    · intro hle
      exact Or.inr ⟨he, Or.inr ⟨hv, hle⟩⟩
    · rintro (hlt | ⟨_, hlt2 | ⟨_, hd⟩⟩)
      · rw [he] at hlt
        exact absurd hlt (lt_irrefl _)
      · rw [hv] at hlt2
        exact absurd hlt2 (lt_irrefl _)
      · exact hd

instance (line : ℚ) : IsTotal ProcessedEntry (candBefore line) := by
  constructor
  intro a b
  rw [candBefore_iff, candBefore_iff]
  rcases lt_trichotomy a.intersectionRatio b.intersectionRatio with h | h | h
  · exact Or.inr (Or.inl h)
  · rcases lt_trichotomy a.visibleHeightBelowActiveLine b.visibleHeightBelowActiveLine with
      h2 | h2 | h2
    · exact Or.inr (Or.inr ⟨h, Or.inl h2⟩)
    · rcases le_total |a.boundingClientRectTop - line| |b.boundingClientRectTop - line| with
        h3 | h3
      · exact Or.inl (Or.inr ⟨h.symm, Or.inr ⟨h2.symm, h3⟩⟩)
      · exact Or.inr (Or.inr ⟨h, Or.inr ⟨h2, h3⟩⟩)
    · exact Or.inl (Or.inr ⟨h.symm, Or.inl h2⟩)
  · exact Or.inl (Or.inl h)

instance (line : ℚ) : IsTrans ProcessedEntry (candBefore line) := by
  constructor
  intro a b c hab hbc
  rw [candBefore_iff] at hab hbc ⊢
  rcases hab with h1 | ⟨e1, h1⟩
  · rcases hbc with h2 | ⟨e2, _⟩
    · exact Or.inl (lt_trans h2 h1)
    · exact Or.inl (e2 ▸ h1)
  · rcases hbc with h2 | ⟨e2, h2⟩
    · exact Or.inl (e1 ▸ h2)
    · refine Or.inr ⟨e2.trans e1, ?_⟩
      rcases h1 with h1 | ⟨f1, h1⟩
      · rcases h2 with h2 | ⟨f2, _⟩
        · exact Or.inl (lt_trans h2 h1)
        · exact Or.inl (f2 ▸ h1)
      · rcases h2 with h2 | ⟨f2, h2⟩
        · exact Or.inl (f1 ▸ h2)
        · exact Or.inr ⟨f2.trans f1, le_trans h1 h2⟩

/-- `resolveCandidate` forwards nothing when the filter leaves no
candidate, whichever of the two early-return branches runs. -/
theorem resolveCandidate_of_no_candidates (k line : ℚ) (activeId : String)
    (entries : List ObserverEntry) (h : visibleCandidates line entries = []) :
    resolveCandidate k line activeId entries = none := by
  have h' : List.filter isVisibleCandidate (processedEntries line entries) = [] := h
  simp only [resolveCandidate, h', List.isEmpty_nil, if_true]
  split
  · split <;> rfl
  · rfl

/-! ## C2: candidate filter and ranking -/

/-- C2: in every observation batch the candidate set is exactly the
processed reports that intersect, have positive visible height below the
active line (computed as `max 0 (visibleBottom − ActiveLine)`), and have
intersection ratio above 0.05; and the survivors are rearranged into a
list sorted by the comparator relation, which is exactly: ratio
descending, then visible height below the line descending, then distance
of the rect top from the active line ascending. -/
theorem candidate_filter_and_ranking (line : ℚ) (entries : List ObserverEntry) :
    (∀ e, e ∈ entries →
      (processEntry line e).visibleHeightBelowActiveLine =
        max 0 ((e.intersectionRectBottom.getD 0) - line)) ∧
    (∀ p, p ∈ visibleCandidates line entries ↔
      p ∈ processedEntries line entries ∧
        (p.isIntersecting = true ∧ 0 < p.visibleHeightBelowActiveLine ∧
          (0.05 : ℚ) < p.intersectionRatio)) ∧
    List.Perm (sortCandidates line (visibleCandidates line entries))
      (visibleCandidates line entries) ∧
    List.Sorted (candBefore line) (sortCandidates line (visibleCandidates line entries)) ∧
    (∀ a b : ProcessedEntry, candBefore line a b ↔
      (b.intersectionRatio < a.intersectionRatio ∨
        (b.intersectionRatio = a.intersectionRatio ∧
          (b.visibleHeightBelowActiveLine < a.visibleHeightBelowActiveLine ∨
            (b.visibleHeightBelowActiveLine = a.visibleHeightBelowActiveLine ∧
              |a.boundingClientRectTop - line| ≤ |b.boundingClientRectTop - line|))))) := by
  refine ⟨fun e _ => rfl, fun p => ?_, List.perm_insertionSort _ _,
    List.sorted_insertionSort _ _, candBefore_iff line⟩
  unfold visibleCandidates
  rw [List.mem_filter, isVisibleCandidate_iff]

/-! ## C5: no surviving candidate means no action -/

/-- C5: an observation tick in which no report passes the candidate filter
leaves the session completely unchanged — no `activeTab` change and no
forwarding to the dispatcher — whether or not the currently active section
is still slightly intersecting. -/
theorem no_candidate_preservation (k line : ℚ) (debounceDelay now : Nat)
    (entries : List ObserverEntry) (s : Session)
    (h : visibleCandidates line entries = []) :
    observerTick k line debounceDelay now entries s = s := by
  unfold observerTick
  split
  · rfl
  · rw [resolveCandidate_of_no_candidates k line s.activeTab entries h]

/-! ## C1: the stickiness rule -/

/-- C1: when the current active id is among the surviving candidates and
the top-ranked candidate differs from it, the resolver forwards the top
candidate's id exactly when `top.intersectionRatio ≥
current.intersectionRatio × stickinessFactor`, and otherwise forwards the
current active id. -/
theorem stickiness_rule (k line : ℚ) (activeId : String) (entries : List ObserverEntry)
    (top cur : ProcessedEntry) (rest : List ProcessedEntry)
    (hsort : sortCandidates line (visibleCandidates line entries) = top :: rest)
    (hfind : (top :: rest).find? (fun vc => vc.id == activeId) = some cur)
    (hne : top.id ≠ activeId) :
    resolveCandidate k line activeId entries =
      some (if cur.intersectionRatio * k ≤ top.intersectionRatio then top.id
            else activeId) := by
  have hsort' : sortCandidates line
      (List.filter isVisibleCandidate (processedEntries line entries)) = top :: rest := hsort
  have hperm := List.perm_insertionSort (candBefore line) (visibleCandidates line entries)
  rw [show List.insertionSort (candBefore line) (visibleCandidates line entries)
        = top :: rest from hsort] at hperm
  have hcons : visibleCandidates line entries ≠ [] := by
    intro hnil
    rw [hnil] at hperm
    exact absurd hperm.symm (by simp)
  have hEmp : (List.filter isVisibleCandidate (processedEntries line entries)).isEmpty
      = false := by
    rw [List.isEmpty_eq_false]
    exact hcons
  simp only [resolveCandidate, hEmp, hsort', hfind, Bool.false_eq_true, if_false]
  rcases lt_or_ge top.intersectionRatio (cur.intersectionRatio * k) with h | h
  · rw [if_pos ⟨hne, h⟩, if_neg (not_le.mpr h)]
  · rw [if_neg (fun hc => absurd hc.2 (not_lt.mpr h)), if_pos h]

/-- C1 at the spec's concrete inputs: with the current active section A at
ratio 0.50 and stickiness factor 1.2, a candidate B at ratio 0.52 is
rejected (the resolver keeps A), while a candidate B at ratio 0.65 wins
(the resolver switches to B). -/
theorem stickiness_rule_witness :
    resolveCandidate 1.2 0 "A"
        [⟨"A", true, 0.50, 10, some 100⟩, ⟨"B", true, 0.52, 20, some 100⟩] = some "A" ∧
    resolveCandidate 1.2 0 "A"
        [⟨"A", true, 0.50, 10, some 100⟩, ⟨"B", true, 0.65, 20, some 100⟩] = some "B" := by
  constructor
  · have h := stickiness_rule 1.2 0 "A"
      [⟨"A", true, 0.50, 10, some 100⟩, ⟨"B", true, 0.52, 20, some 100⟩]
      ⟨"B", true, 0.52, 20, 100⟩ ⟨"A", true, 0.50, 10, 100⟩ [⟨"A", true, 0.50, 10, 100⟩]
      (by norm_num [sortCandidates, visibleCandidates, processedEntries, processEntry,
        isVisibleCandidate, List.filter_cons, List.insertionSort, List.orderedInsert,
        candBefore, candCmp])
      (by simp [List.find?_cons])
      (by decide)
    rw [h]
    norm_num
  · have h := stickiness_rule 1.2 0 "A"
      [⟨"A", true, 0.50, 10, some 100⟩, ⟨"B", true, 0.65, 20, some 100⟩]
      ⟨"B", true, 0.65, 20, 100⟩ ⟨"A", true, 0.50, 10, 100⟩ [⟨"A", true, 0.50, 10, 100⟩]
      (by norm_num [sortCandidates, visibleCandidates, processedEntries, processEntry,
        isVisibleCandidate, List.filter_cons, List.insertionSort, List.orderedInsert,
        candBefore, candCmp])
      (by simp [List.find?_cons])
      (by decide)
    rw [h]
    norm_num

/-- C5 at the spec's concrete input: a tick where the only section reports
ratio 0.03 (≤ 0.05) leaves the session unchanged. -/
theorem no_candidate_preservation_witness :
    observerTick 1.05 0 150 1000 [⟨"s1", true, 0.03, 10, some 50⟩]
      (initSession none ["s1"]) = initSession none ["s1"] :=
  no_candidate_preservation 1.05 0 150 1000 [⟨"s1", true, 0.03, 10, some 50⟩]
    (initSession none ["s1"])
    (by norm_num [visibleCandidates, processedEntries, processEntry, isVisibleCandidate,
      List.filter_cons])

/-! ## C8: unresolvable click targets are a no-op -/

/-- `handleTabClick` guard: with an unresolvable section element or an
unmounted scroll container the body is skipped entirely. -/
theorem handleTabClick_noop (env : ClickEnv) (activeLineOffset : Option ℚ)
    (defaultScrollBehavior : String) (now : Nat) (tabId : String)
    (behavior : Option String) (s : Session)
    (h : env.sectionOffsetTop tabId = none ∨ env.scrollContainerMounted = false) :
    handleTabClick env activeLineOffset defaultScrollBehavior now tabId behavior s =
      { session := s, scrollCommand := none, warned := false } := by
  rcases h with h | h
  · unfold handleTabClick
    rw [h]
  · unfold handleTabClick
    rw [h]
    rcases env.sectionOffsetTop tabId with _ | t <;> rfl

/-- C8: a `handleTabClick` call whose target section or scroll container
does not resolve changes nothing: the session state (active id,
suppression flag, pending timers, notifications) is returned untouched,
no scroll command is issued and no warning is emitted. -/
theorem click_unresolvable_noop (env : ClickEnv) (activeLineOffset : Option ℚ)
    (defaultScrollBehavior : String) (now : Nat) (tabId : String)
    (behavior : Option String) (s : Session)
    (h : env.sectionOffsetTop tabId = none ∨ env.scrollContainerMounted = false) :
    handleTabClick env activeLineOffset defaultScrollBehavior now tabId behavior s =
      { session := s, scrollCommand := none, warned := false } :=
  handleTabClick_noop env activeLineOffset defaultScrollBehavior now tabId behavior s h

/-- C8 at a concrete input: clicking an unregistered id in a session with
one registered section changes nothing. -/
theorem click_unresolvable_noop_witness :
    handleTabClick ⟨fun id => if id == "s1" then some 100 else none, true, 40⟩
        none "smooth" 0 "ghost" none (initSession none ["s1"]) =
      { session := initSession none ["s1"], scrollCommand := none, warned := false } :=
  click_unresolvable_noop ⟨fun id => if id == "s1" then some 100 else none, true, 40⟩
    none "smooth" 0 "ghost" none (initSession none ["s1"]) (Or.inl (by decide))

/-! ## C6: scroll target computation -/

/-- The click path's effective line offset, spelled out: the configured
override if set, else the measured height, else 60 when that height is 0. -/
theorem clickEffectiveNavHeight_eq (activeLineOffset : Option ℚ) (m : ℚ) :
    clickEffectiveNavHeight activeLineOffset m =
      match activeLineOffset with
      | some o => o
      | none => if m = 0 then 60 else m := by
  unfold clickEffectiveNavHeight
  cases activeLineOffset <;> simp

/-- C6: for a click on a registered section with a mounted container, the
issued scroll command targets `topOffsetInContainer − effectiveLineOffset`,
where the effective line offset is the configured `activeLineOffset` if
set, else the measured nav-bar height, else the fixed default 60 when that
height is 0 — the case in which, and only in which, the diagnostic warning
fires.  The scroll behavior is the explicit one or the configured default. -/
theorem scroll_target_computation (env : ClickEnv) (activeLineOffset : Option ℚ)
    (defaultScrollBehavior : String) (now : Nat) (tabId : String)
    (behavior : Option String) (s : Session) (offTop : ℚ)
    (hsec : env.sectionOffsetTop tabId = some offTop)
    (hmount : env.scrollContainerMounted = true) :
    (handleTabClick env activeLineOffset defaultScrollBehavior now tabId behavior
        s).scrollCommand =
      some { top := offTop -
               (match activeLineOffset with
                | some o => o
                | none =>
                    if env.navTabsOffsetHeight = 0 then 60 else env.navTabsOffsetHeight)
             behavior := behavior.getD defaultScrollBehavior } ∧
    ((handleTabClick env activeLineOffset defaultScrollBehavior now tabId behavior
        s).warned = true ↔
      (env.navTabsOffsetHeight = 0 ∧ activeLineOffset = none)) := by
  constructor
  · simp only [handleTabClick, hsec, hmount, clickEffectiveNavHeight_eq]
  · simp only [handleTabClick, hsec, hmount]
    exact decide_eq_true_iff

/-- C6 at the spec's concrete input: `topOffsetInContainer = 1000` and an
explicit line offset of 65 give scroll target 935. -/
theorem scroll_target_computation_witness :
    (handleTabClick ⟨fun id => if id == "s1" then some 1000 else none, true, 40⟩
        (some 65) "smooth" 0 "s1" none (initSession none ["s1"])).scrollCommand =
      some { top := 935, behavior := "smooth" } := by
  have h := scroll_target_computation
    ⟨fun id => if id == "s1" then some 1000 else none, true, 40⟩
    (some 65) "smooth" 0 "s1" none (initSession none ["s1"]) 1000 (by decide) rfl
  rw [h.1]
  norm_num

/-! ## C10: observer line vs click line -/

/-- C10: with no configured `activeLineOffset` and a positive measured
nav-bar height `h`, the observer's active line sits at `h + 5` while the
click path scrolls to put the section top at offset `h`: the two line
offsets differ by exactly the fixed 5 px margin. -/
theorem observer_click_line_margin (h : ℚ) (hpos : 0 < h) :
    observerEffectiveActiveLineOffset none h = h + 5 ∧
    clickEffectiveNavHeight none h = h ∧
    observerEffectiveActiveLineOffset none h - clickEffectiveNavHeight none h = 5 := by
  have hne : h ≠ 0 := ne_of_gt hpos
  have h1 : observerEffectiveActiveLineOffset none h = h + 5 := by
    simp [observerEffectiveActiveLineOffset, hne]
  have h2 : clickEffectiveNavHeight none h = h := by
    simp [clickEffectiveNavHeight, hne]
  refine ⟨h1, h2, ?_⟩
  rw [h1, h2]
  ring

/-- C10 at a concrete measured height of 50 px. -/
theorem observer_click_line_margin_witness :
    observerEffectiveActiveLineOffset none 50 = 50 + 5 ∧
    clickEffectiveNavHeight none 50 = 50 ∧
    observerEffectiveActiveLineOffset none 50 - clickEffectiveNavHeight none 50 = 5 :=
  observer_click_line_margin 50 (by norm_num)

/-! ## C3: the suppression window -/

theorem setActiveTab_activeTab (tabId : String) (s : Session) :
    (setActiveTab tabId s).activeTab = tabId := by
  unfold setActiveTab
  split
  · rename_i h
    exact h.symm
  · rfl

theorem setActiveTab_isProgrammaticScroll (tabId : String) (s : Session) :
    (setActiveTab tabId s).isProgrammaticScroll = s.isProgrammaticScroll := by
  unfold setActiveTab
  split <;> rfl

theorem setActiveTab_programmaticScrollTimeout (tabId : String) (s : Session) :
    (setActiveTab tabId s).programmaticScrollTimeout = s.programmaticScrollTimeout := by
  unfold setActiveTab
  split <;> rfl

theorem setActiveTab_debounceTimeout (tabId : String) (s : Session) :
    (setActiveTab tabId s).debounceTimeout = s.debounceTimeout := by
  unfold setActiveTab
  split <;> rfl

/-- After a resolvable click at time `now`, the session is in the
suppressed configuration: active tab set optimistically, flag up,
un-suppress scheduled `PROGRAMMATIC_SCROLL_SETTLE` out, debounce timer
untouched. -/
theorem handleTabClick_session_fields (env : ClickEnv) (activeLineOffset : Option ℚ)
    (defaultScrollBehavior : String) (now : Nat) (tabId : String)
    (behavior : Option String) (s : Session) (offTop : ℚ)
    (hsec : env.sectionOffsetTop tabId = some offTop)
    (hmount : env.scrollContainerMounted = true) :
    (handleTabClick env activeLineOffset defaultScrollBehavior now tabId behavior
        s).session.activeTab = tabId ∧
    (handleTabClick env activeLineOffset defaultScrollBehavior now tabId behavior
        s).session.isProgrammaticScroll = true ∧
    (handleTabClick env activeLineOffset defaultScrollBehavior now tabId behavior
        s).session.programmaticScrollTimeout = some (now + PROGRAMMATIC_SCROLL_SETTLE) ∧
    (handleTabClick env activeLineOffset defaultScrollBehavior now tabId behavior
        s).session.debounceTimeout = s.debounceTimeout := by
  simp [handleTabClick, hsec, hmount, setActiveTab_activeTab,
    setActiveTab_isProgrammaticScroll, setActiveTab_debounceTimeout]

/-- One pre-settle event preserves the suppressed configuration as long as
it occurs strictly before the scheduled un-suppress time. -/
theorem stepPreSettle_preserve (k line : ℚ) (delay : Nat) (tabId : String)
    (deadline : Nat) (pending : Option (Nat × String)) (ev : PreSettleEvent) (st : Session)
    (hev : eventTime ev < deadline)
    (h1 : st.activeTab = tabId) (h2 : st.isProgrammaticScroll = true)
    (h3 : st.programmaticScrollTimeout = some deadline) (h4 : st.debounceTimeout = pending) :
    (stepPreSettle k line delay st ev).activeTab = tabId ∧
    (stepPreSettle k line delay st ev).isProgrammaticScroll = true ∧
    (stepPreSettle k line delay st ev).programmaticScrollTimeout = some deadline ∧
    (stepPreSettle k line delay st ev).debounceTimeout = pending := by
  cases ev with
  | tick now entries =>
      have hskip : stepPreSettle k line delay st (.tick now entries) = st := by
        simp [stepPreSettle, observerTick, h2]
      rw [hskip]
      exact ⟨h1, h2, h3, h4⟩
  | unsuppressAttempt now =>
      have hnotdue : stepPreSettle k line delay st (.unsuppressAttempt now) = st := by
        simp only [stepPreSettle, fireUnsuppress, h3]
        rw [if_neg (by exact Nat.not_le.mpr hev)]
      rw [hnotdue]
      exact ⟨h1, h2, h3, h4⟩

/-- Folding pre-settle events that all occur before the deadline keeps the
suppressed configuration. -/
theorem foldl_stepPreSettle_preserve (k line : ℚ) (delay : Nat) (tabId : String)
    (deadline : Nat) (pending : Option (Nat × String)) (events : List PreSettleEvent)
    (st : Session)
    (htimes : ∀ ev ∈ events, eventTime ev < deadline)
    (h1 : st.activeTab = tabId) (h2 : st.isProgrammaticScroll = true)
    (h3 : st.programmaticScrollTimeout = some deadline) (h4 : st.debounceTimeout = pending) :
    (events.foldl (stepPreSettle k line delay) st).activeTab = tabId ∧
    (events.foldl (stepPreSettle k line delay) st).isProgrammaticScroll = true ∧
    (events.foldl (stepPreSettle k line delay) st).programmaticScrollTimeout
        = some deadline ∧
    (events.foldl (stepPreSettle k line delay) st).debounceTimeout = pending := by
  induction events generalizing st with
  | nil => exact ⟨h1, h2, h3, h4⟩
  | cons ev evs ih =>
      have hstep := stepPreSettle_preserve k line delay tabId deadline pending ev st
        (htimes ev (List.mem_cons_self ev evs)) h1 h2 h3 h4
      exact ih (stepPreSettle k line delay st ev)
        (fun e he => htimes e (List.mem_cons_of_mem ev he))
        hstep.1 hstep.2.1 hstep.2.2.1 hstep.2.2.2

/-- C3: after a resolvable `handleTabClick(tabId)` at time `t`, any
sequence of observer ticks and un-suppress attempts occurring strictly
before `t + 800` leaves the selected tab active, the suppression flag set,
and the debounce timer exactly as it was before the click: every tick in
the settle window is skipped entirely and forwards nothing to the
dispatcher. -/
theorem suppression_window (k line : ℚ) (delay : Nat) (env : ClickEnv)
    (activeLineOffset : Option ℚ) (defaultScrollBehavior : String) (t : Nat)
    (tabId : String) (behavior : Option String) (s : Session)
    (events : List PreSettleEvent) (offTop : ℚ)
    (hsec : env.sectionOffsetTop tabId = some offTop)
    (hmount : env.scrollContainerMounted = true)
    (htimes : ∀ ev ∈ events, eventTime ev < t + PROGRAMMATIC_SCROLL_SETTLE) :
    (events.foldl (stepPreSettle k line delay)
        (handleTabClick env activeLineOffset defaultScrollBehavior t tabId behavior
          s).session).activeTab = tabId ∧
    (events.foldl (stepPreSettle k line delay)
        (handleTabClick env activeLineOffset defaultScrollBehavior t tabId behavior
          s).session).isProgrammaticScroll = true ∧
    (events.foldl (stepPreSettle k line delay)
        (handleTabClick env activeLineOffset defaultScrollBehavior t tabId behavior
          s).session).debounceTimeout = s.debounceTimeout := by
  have hf := handleTabClick_session_fields env activeLineOffset defaultScrollBehavior t
    tabId behavior s offTop hsec hmount
  have hfold := foldl_stepPreSettle_preserve k line delay tabId
    (t + PROGRAMMATIC_SCROLL_SETTLE) s.debounceTimeout events _ htimes
    hf.1 hf.2.1 hf.2.2.1 hf.2.2.2
  exact ⟨hfold.1, hfold.2.1, hfold.2.2.2⟩

/-- C3 at a concrete input: selecting `s2` at time 0 and then delivering a
tick reporting a fully visible `s1` (plus an early un-suppress attempt and
another tick) before the 800 ms settle window ends leaves `s2` active and
forwards nothing. -/
theorem suppression_window_witness :
    (([PreSettleEvent.tick 100 [⟨"s1", true, 0.9, 10, some 300⟩],
       PreSettleEvent.unsuppressAttempt 300,
       PreSettleEvent.tick 500 [⟨"s1", true, 0.9, 10, some 300⟩]] :
         List PreSettleEvent).foldl (stepPreSettle 1.05 65 150)
       (handleTabClick ⟨fun id => if id == "s2" then some 500 else some 0, true, 60⟩
         none "smooth" 0 "s2" none (initSession none ["s1", "s2"])).session).activeTab
       = "s2" ∧
    (([PreSettleEvent.tick 100 [⟨"s1", true, 0.9, 10, some 300⟩],
       PreSettleEvent.unsuppressAttempt 300,
       PreSettleEvent.tick 500 [⟨"s1", true, 0.9, 10, some 300⟩]] :
         List PreSettleEvent).foldl (stepPreSettle 1.05 65 150)
       (handleTabClick ⟨fun id => if id == "s2" then some 500 else some 0, true, 60⟩
         none "smooth" 0 "s2" none (initSession none ["s1", "s2"])).session).debounceTimeout
       = (initSession none ["s1", "s2"]).debounceTimeout := by
  have h := suppression_window 1.05 65 150
    ⟨fun id => if id == "s2" then some 500 else some 0, true, 60⟩
    none "smooth" 0 "s2" none (initSession none ["s1", "s2"])
    [PreSettleEvent.tick 100 [⟨"s1", true, 0.9, 10, some 300⟩],
     PreSettleEvent.unsuppressAttempt 300,
     PreSettleEvent.tick 500 [⟨"s1", true, 0.9, 10, some 300⟩]] 500
    (by decide) rfl
    (by intro ev hev
        simp only [List.mem_cons, List.not_mem_nil, or_false] at hev
        rcases hev with h1 | h1 | h1 <;> subst h1 <;> decide)
  exact ⟨h.1, h.2.2⟩

/-! ## C4: debounce coalescing -/

/-- Each debounced emission cancels the pending timer and schedules the
newest candidate, so a burst ending in `(tLast, lastId)` leaves exactly
that candidate pending and touches nothing else. -/
theorem foldl_debouncedUpdate (delay : Nat) (s : Session)
    (earlier : List (Nat × String)) (tLast : Nat) (lastId : String) :
    (earlier ++ [(tLast, lastId)]).foldl
        (fun st q => debouncedUpdateActiveTab delay q.1 q.2 st) s =
      { s with debounceTimeout := some (tLast + delay, lastId) } := by
  induction earlier generalizing s with
  | nil => rfl
  | cons p es ih =>
      rw [List.cons_append, List.foldl_cons]
      exact ih (debouncedUpdateActiveTab delay p.1 p.2 s)

/-- C4: emissions within one quiet window coalesce: when the debounce
timer finally fires after a burst whose last emission is `(tLast,
lastId)`, at most one update is committed, and only to `lastId`; a last
candidate that is empty or equal to the already-active id commits nothing
and fires no notification. -/
theorem debounce_coalescing (delay : Nat) (s : Session)
    (earlier : List (Nat × String)) (tLast : Nat) (lastId : String) :
    (fireDebounce ((earlier ++ [(tLast, lastId)]).foldl
        (fun st q => debouncedUpdateActiveTab delay q.1 q.2 st) s)).debounceTimeout
      = none ∧
    (lastId ≠ "" ∧ lastId ≠ s.activeTab →
      (fireDebounce ((earlier ++ [(tLast, lastId)]).foldl
          (fun st q => debouncedUpdateActiveTab delay q.1 q.2 st) s)).activeTab = lastId ∧
      (fireDebounce ((earlier ++ [(tLast, lastId)]).foldl
          (fun st q => debouncedUpdateActiveTab delay q.1 q.2 st) s)).notifications
        = lastId :: s.notifications) ∧
    (lastId = "" ∨ lastId = s.activeTab →
      fireDebounce ((earlier ++ [(tLast, lastId)]).foldl
          (fun st q => debouncedUpdateActiveTab delay q.1 q.2 st) s)
        = { s with debounceTimeout := none }) := by
  rw [foldl_debouncedUpdate]
  by_cases hc : lastId ≠ "" ∧ lastId ≠ s.activeTab
  · have hfire : fireDebounce { s with debounceTimeout := some (tLast + delay, lastId) }
        = setActiveTab lastId { s with debounceTimeout := none } := by
      simp only [fireDebounce]
      rw [if_pos hc]
    rw [hfire]
    have hset : setActiveTab lastId { s with debounceTimeout := none }
        = { s with
            activeTab := lastId
            debounceTimeout := none
            notifications := lastId :: s.notifications } := by
      unfold setActiveTab
      rw [if_neg hc.2]
    rw [hset]
    refine ⟨rfl, fun _ => ⟨rfl, rfl⟩, fun hd => ?_⟩
    rcases hd with hd | hd
    · exact absurd hd hc.1
    · exact absurd hd hc.2
  · have hfire : fireDebounce { s with debounceTimeout := some (tLast + delay, lastId) }
        = { s with debounceTimeout := none } := by
      simp only [fireDebounce]
      rw [if_neg hc]
    rw [hfire]
    exact ⟨rfl, fun h => absurd h hc, fun _ => rfl⟩

/-! ## C9: teardown and pending timers -/

/-- C9 fails on the code: the observer effect's cleanup clears the pending
un-suppress timeout but leaves a pending debounce timer scheduled (the
debounce wrapper exposes no cancel), and when that stale callback later
fires it still mutates the torn-down session — here committing `s2` and
notifying. -/
theorem teardown_leaves_debounce_pending :
    (effectCleanup
      (⟨"s1", false, some 900, some (100, "s2"), []⟩ : Session)).programmaticScrollTimeout
      = none ∧
    (effectCleanup
      (⟨"s1", false, some 900, some (100, "s2"), []⟩ : Session)).debounceTimeout
      = some (100, "s2") ∧
    (fireDebounce (effectCleanup
      (⟨"s1", false, some 900, some (100, "s2"), []⟩ : Session))).activeTab = "s2" ∧
    (fireDebounce (effectCleanup
      (⟨"s1", false, some 900, some (100, "s2"), []⟩ : Session))).notifications = ["s2"] := by
  decide

/-! ## C7: the activeId invariant -/

/-- C7 as stated fails on the code: `getInitialActiveTab` returns a
configured `initialActiveTab` without checking it against the registered
section keys, so with `initialActiveTab = "ghost"` and registered sections
`["s1"]` the fresh session's `activeTab` is neither a registered id nor
empty-with-no-sections. -/
theorem activeId_invariant_counterexample :
    ¬((initSession (some "ghost") ["s1"]).activeTab ∈ (["s1"] : List String) ∨
      ((initSession (some "ghost") ["s1"]).activeTab = "" ∧
        (["s1"] : List String) = [])) := by
  decide

/-- A forwarded candidate id is one of the batch's entry ids, or the
current active id itself. -/
theorem resolveCandidate_mem (k line : ℚ) (activeId : String)
    (entries : List ObserverEntry) (id : String)
    (h : resolveCandidate k line activeId entries = some id) :
    (∃ e ∈ entries, id = e.id) ∨ id = activeId := by
  simp only [resolveCandidate] at h
  split at h
  · split at h
    · split at h <;> exact Option.noConfusion h
    · exact Option.noConfusion h
  · split at h
    · exact Option.noConfusion h
    · rename_i top rest hsort
      have htop : ∃ e ∈ entries, top.id = e.id := by
        have hmem : top ∈ sortCandidates line
            (List.filter isVisibleCandidate (processedEntries line entries)) := by
          rw [hsort]
          exact List.mem_cons_self top rest
        have hmem2 := (List.perm_insertionSort (candBefore line) _).mem_iff.mp hmem
        have hproc := List.mem_of_mem_filter hmem2
        rcases List.mem_map.mp hproc with ⟨e, he, hpe⟩
        exact ⟨e, he, by rw [← hpe]; rfl⟩
      split at h
      · split at h
        · right
          exact (Option.some.inj h).symm
        · left
          obtain rfl : top.id = id := Option.some.inj h
          exact htop
      · left
        obtain rfl : top.id = id := Option.some.inj h
        exact htop

/-- The initial active tab is a registered key, or empty with no keys,
provided a configured nonempty `initialActiveTab` is registered. -/
theorem getInitialActiveTab_mem (initialActiveTab : Option String)
    (sectionKeys : List String)
    (hinit : ∀ x, initialActiveTab = some x → x ≠ "" → x ∈ sectionKeys) :
    getInitialActiveTab initialActiveTab sectionKeys ∈ sectionKeys ∨
      (getInitialActiveTab initialActiveTab sectionKeys = "" ∧ sectionKeys = []) := by
  unfold getInitialActiveTab
  by_cases hx : initialActiveTab.getD "" ≠ ""
  · rw [if_pos hx]
    cases hi : initialActiveTab with
    | none =>
        rw [hi] at hx
        exact absurd rfl hx
    | some x =>
        rw [hi] at hx
        exact Or.inl (hinit x hi hx)
  · rw [if_neg hx]
    cases sectionKeys with
    | nil => exact Or.inr ⟨rfl, rfl⟩
    | cons a l => exact Or.inl (List.mem_cons_self a l)

/-- C7 amended: provided a configured `initialActiveTab`, when nonempty,
is a registered section id, the invariant holds: initialisation
establishes it, and the click-selection optimistic set, the resolver's
forwarding step (with observer entries drawn from registered sections),
and the debounced commit each preserve it.  `ActiveInv` projects to the
claimed invariant in its first component. -/
theorem activeId_invariant_amended (sectionKeys : List String)
    (initialActiveTab : Option String) (env : ClickEnv) (k line : ℚ) (delay : Nat)
    (activeLineOffset : Option ℚ) (defaultScrollBehavior : String)
    (hinit : ∀ x, initialActiveTab = some x → x ≠ "" → x ∈ sectionKeys)
    (henv : ∀ id, (env.sectionOffsetTop id).isSome → id ∈ sectionKeys) :
    ActiveInv sectionKeys (initSession initialActiveTab sectionKeys) ∧
    (∀ s now tabId behavior, ActiveInv sectionKeys s →
      ActiveInv sectionKeys
        (handleTabClick env activeLineOffset defaultScrollBehavior now tabId behavior
          s).session) ∧
    (∀ s now entries, (∀ e ∈ entries, e.id ∈ sectionKeys) → ActiveInv sectionKeys s →
      ActiveInv sectionKeys (observerTick k line delay now entries s)) ∧
    (∀ s, ActiveInv sectionKeys s → ActiveInv sectionKeys (fireDebounce s)) := by
  refine ⟨⟨getInitialActiveTab_mem initialActiveTab sectionKeys hinit, ?_⟩, ?_, ?_, ?_⟩
  · intro ti id hd
    exact Option.noConfusion hd
  · intro s now tabId behavior hInv
    cases hsec : env.sectionOffsetTop tabId with
    | none =>
        rw [handleTabClick_noop env activeLineOffset defaultScrollBehavior now tabId
          behavior s (Or.inl hsec)]
        exact hInv
    | some off =>
        cases hm : env.scrollContainerMounted with
        | false =>
            rw [handleTabClick_noop env activeLineOffset defaultScrollBehavior now tabId
              behavior s (Or.inr hm)]
            exact hInv
        | true =>
            have hf := handleTabClick_session_fields env activeLineOffset
              defaultScrollBehavior now tabId behavior s off hsec hm
            constructor
            · left
              rw [hf.1]
              exact henv tabId (by rw [hsec]; rfl)
            · intro ti id hd
              rw [hf.2.2.2] at hd
              exact hInv.2 ti id hd
  · intro s now entries hids hInv
    unfold observerTick
    split
    · exact hInv
    · split
      · exact hInv
      · rename_i id hres
        refine ⟨hInv.1, ?_⟩
        intro ti id2 hd
        have h2 : (now + delay, id) = (ti, id2) := Option.some.inj hd
        have hid2 : id = id2 := congrArg Prod.snd h2
        subst hid2
        rcases resolveCandidate_mem k line s.activeTab entries id hres with ⟨e, he, hid⟩ | hid
        · exact Or.inl (hid ▸ hids e he)
        · rcases hInv.1 with hmem | ⟨hemp, _⟩
          · exact Or.inl (hid ▸ hmem)
          · exact Or.inr (hid.trans hemp)
  · intro s hInv
    unfold fireDebounce
    split
    · exact hInv
    · rename_i p ti id heq
      show ActiveInv sectionKeys
        (if id ≠ "" ∧ id ≠ s.activeTab then
          setActiveTab id { s with debounceTimeout := none }
        else { s with debounceTimeout := none })
      by_cases hc : id ≠ "" ∧ id ≠ s.activeTab
      · rw [if_pos hc]
        constructor
        · rw [setActiveTab_activeTab]
          rcases hInv.2 ti id heq with hmem | hemp
          · exact Or.inl hmem
          · exact absurd hemp hc.1
        · intro tj idj hd
          rw [setActiveTab_debounceTimeout] at hd
          exact Option.noConfusion hd
      · rw [if_neg hc]
        exact ⟨hInv.1, fun tj idj hd => Option.noConfusion hd⟩

/-- C7 amended, instantiated: one registered section `s1`, no configured
initial tab, a click environment resolving only `s1`. -/
theorem activeId_invariant_amended_witness :
    ActiveInv ["s1"] (initSession none ["s1"]) ∧
    (∀ s now tabId behavior, ActiveInv ["s1"] s →
      ActiveInv ["s1"]
        (handleTabClick ⟨fun id => if id == "s1" then some 100 else none, true, 40⟩
          none "smooth" now tabId behavior s).session) ∧
    (∀ s now entries, (∀ e ∈ entries, e.id ∈ ["s1"]) → ActiveInv ["s1"] s →
      ActiveInv ["s1"] (observerTick 1.05 65 150 now entries s)) ∧
    (∀ s, ActiveInv ["s1"] s → ActiveInv ["s1"] (fireDebounce s)) :=
  activeId_invariant_amended ["s1"] none
    ⟨fun id => if id == "s1" then some 100 else none, true, 40⟩ 1.05 65 150 none "smooth"
    (fun x hx => absurd hx (by simp))
    (fun id h => by
      by_cases hid : id = "s1"
      · simp [hid]
      · simp [hid] at h)

end ReactScroll
